import Mathlib

/-!
Verification of the covid-stats-api resolver (src/api/graphql.js, latest
schema version) against its natural-language specification.

The JavaScript source is shallowly embedded:

* JS objects used as string-keyed records become association lists
  (later assignments override, mirroring property assignment);
* a JS value that may be the JS sentinel undefined becomes an Option;
* code that can throw becomes Option / Except (none / error = thrown);
* the regular expressions are embedded as an explicit AST (RE) together
  with a backtracking matcher implementing JavaScript exec search
  semantics (leftmost start position, alternatives tried left to right,
  lazy quantifiers shortest-first, greedy optionals longest-first);
* the concurrently dispatched upstream calls of the resolver are passed
  in as oracle results (Except values), one per call; Promise.all is
  modelled as sequential binding in array order, which determinises the
  error choice (JavaScript rejects with the temporally first rejection;
  for the claims only the single-failure case needs the exact error).
-/

namespace CovidApi

/-! ## Static stat tables (src/api/graphql.js lines 7-29) -/

/-- Keys and descriptions of the weekly stats object. -/
def weeklyStats : List (String × String) :=
  [("newCases", "total cases for the past week"),
   ("activeCases", "total active cases"),
   ("averageHospitalCases", "cases in hospital (7-day rolling average)"),
   ("averageICUCases", "cases in ICU (7-day rolling average)"),
   ("averagePCRTests", "PCR tests (7-day rolling average)"),
   ("averagePositiveRATs", "positive RATs (7-day rolling average)"),
   ("totalPCRCases", "total cases from PCR"),
   ("averageDeaths", "lives lost on average each day over the past week"),
   ("totalDeaths", "total lives lost"),
   ("totalRecovered", "cases recovered")]

/-- Keys and descriptions of the vaccination percentage stats object. -/
def vaxPctStats : List (String × String) :=
  [("dose1", "12+ eligible Victorians first dose"),
   ("dose2", "12+ eligible Victorians second dose"),
   ("dose3", "18+ eligible Victorians third dose")]

/-- Keys and descriptions of the vaccination totals stats object. -/
def vaxTotalStats : List (String × String) :=
  [("newDoses", "Total doses administered this week"),
   ("totalDoses", "Total doses administered"),
   ("newAustralianDoses", "Doses administered by Australian Government"),
   ("newVictorianDoses", "Doses administered by Victorian Government")]

def weeklyStatNames : List String := weeklyStats.map Prod.fst

def vaxPctStatNames : List String := vaxPctStats.map Prod.fst

def vaxTotalStatNames : List String := vaxTotalStats.map Prod.fst

/-! ## Name to upstream-record-ID tables (lines 52-76) -/

/-- Result of the nameIdMap constructor: a pair of lookup functions. -/
structure NameIdMap where
  fromName : String → Option String
  fromId : String → Option String

/-- The nameIdMap constructor.  The JS builds two plain objects; with
distinct keys on both sides (which holds for both tables, see
C2_identifier_bijection) object lookup coincides with first-match
association-list lookup. -/
def nameIdMap (toIds : List (String × String)) : NameIdMap where
  fromName := fun name => (toIds.find? (fun p => p.1 == name)).map Prod.snd
  fromId := fun id => (toIds.find? (fun p => p.2 == id)).map Prod.fst

/-- The argument object of the weeklyIds table (lines 56-67). -/
def weeklyIdsTable : List (String × String) :=
  [("newCases", "8e545be4-b7ab-4f9b-a04e-eb0ba4c815b8"),
   ("activeCases", "ec10956c-4f49-4dbf-b751-05e353ef6f27"),
   ("averageHospitalCases", "589143cd-192c-4813-9aa2-ddaffd02d075"),
   ("averageICUCases", "b7db172d-7f4c-4cba-9bf0-f987591411fc"),
   ("averagePCRTests", "957201dc-ed78-4246-9f21-53e7b035d570"),
   ("averagePositiveRATs", "f862f783-74a1-4479-b096-ae9167e58525"),
   ("totalPCRCases", "b725902f-6878-4829-b9eb-35d605a1be34"),
   ("averageDeaths", "a481ad4b-fb95-4645-91fa-19a0eeb2a3cf"),
   ("totalDeaths", "69a44e8d-e04b-4c9a-ad7e-4dda9c662ad2"),
   ("totalRecovered", "9c9481a7-d67b-4815-9a2d-bb6d71c1a774")]

/-- The argument object of the vaxIds table (lines 68-76). -/
def vaxIdsTable : List (String × String) :=
  [("dose1", "d675c960-cb31-4d94-8b18-dd31b6454aff"),
   ("dose2", "4d5012f2-b692-459b-b07f-c91617fcb0d9"),
   ("dose3", "11fe8010-615b-480b-8af3-8810c914c6f7"),
   ("newDoses", "324e92eb-e063-4b00-89f5-50413978d839"),
   ("totalDoses", "fce9c2cb-a847-494f-b6b4-7e557e5e5000"),
   ("newAustralianDoses", "d0d0089f-fbbd-457e-aa01-7804030c49e4"),
   ("newVictorianDoses", "1676357f-540c-49c1-8f09-a79917cc8e84")]

def weeklyIds : NameIdMap := nameIdMap weeklyIdsTable

def vaxIds : NameIdMap := nameIdMap vaxIdsTable

/-! ## Caller field selection (the graphqlFields output read by resolve) -/

/-- Selected sub-fields of the vax section: for percentages and totals,
none means the sub-object was not selected, some ks gives Object.keys of
its selection in query order. -/
structure VaxSel where
  percentages : Option (List String)
  totals : Option (List String)

/-- The resolver input fields: for each section, none means not
selected, some ks gives Object.keys of the selection in query order.
Object.values of the vax selection is modelled percentages-first (the
claims are insensitive to this order). -/
structure Selection where
  weekly : Option (List String)
  vax : Option VaxSel

/-- Truthiness of fields.weekly?.updated (the selected leaf is an object
and hence truthy exactly when present). -/
def weeklyUpdatedSel (sel : Selection) : Bool :=
  match sel.weekly with
  | some ks => ks.contains "updated"
  | none => false

/-- Truthiness of fields.weekly?.week. -/
def weeklyWeekSel (sel : Selection) : Bool :=
  match sel.weekly with
  | some ks => ks.contains "week"
  | none => false

/-- Truthiness of fields.vax?.percentages?.updated. -/
def vaxPctUpdatedSel (sel : Selection) : Bool :=
  match sel.vax with
  | some v =>
    match v.percentages with
    | some ks => ks.contains "updated"
    | none => false
  | none => false

/-- Truthiness of fields.vax?.totals?.week. -/
def vaxTotalsWeekSel (sel : Selection) : Bool :=
  match sel.vax with
  | some v =>
    match v.totals with
    | some ks => ks.contains "week"
    | none => false
  | none => false

/-! ## The Field-Demand Analyzer (lines 100, 179-190) -/

/-- Line 100: const notUpdated = x => x !== 'updated'. -/
def notUpdated (x : String) : Bool := x != "updated"

/-- Lines 179-190: the idsToFetch array.  Entries are Options because
weeklyIds.fromName / vaxIds.fromName return undefined (here: none) for a
key that is not in the table - in particular for a leaf named week,
which the filter keeps (it only removes updated). -/
def idsToFetch (sel : Selection) : List (Option String) :=
  (match sel.weekly with
   | some ks => (ks.filter notUpdated).map weeklyIds.fromName
   | none => []) ++
  (match sel.vax with
   | some v =>
     (((v.percentages.getD []) ++ (v.totals.getD [])).filter notUpdated).map
       vaxIds.fromName
   | none => [])

/-- Line 208: idsToFetch.length is the guard of the batched statistic
call; the call is issued exactly when the array is non-empty. -/
def statsCallIssued (sel : Selection) : Bool := !(idsToFetch sel).isEmpty

/-- Spec-side comparator for claim C1 (from the spec's words): the stat
identifiers appearing in the caller's field selection, i.e. the selected
leaves that are known stat names of their section. -/
def specStatNamesRequested (sel : Selection) : List String :=
  (match sel.weekly with
   | some ks => ks.filter (fun k => weeklyStatNames.contains k)
   | none => []) ++
  (match sel.vax with
   | some v =>
     ((v.percentages.getD []).filter (fun k => vaxPctStatNames.contains k)) ++
     ((v.totals.getD []).filter (fun k => vaxTotalStatNames.contains k))
   | none => [])

/-! ## JS string primitives

Helpers for the JS string operations the source uses, implemented over
character lists so that all definitions evaluate inside the kernel. -/

/-- JS Number(s) restricted to non-empty all-digit strings, the only
shape the regex captures can take where the source applies it. -/
def jsToNat (s : String) : Nat :=
  s.toList.foldl (fun n c => n * 10 + (c.toNat - 48)) 0

/-- Whitespace for JS String.prototype.trim (ASCII whitespace plus
no-break space; the exotic Unicode space classes are not needed for any
value in this development). -/
def jsWhitespace (c : Char) : Bool :=
  c == ' ' || c == '\t' || c == '\n' || c == '\r' ||
  c == '\x0b' || c == '\x0c' || c == '\u00a0'

/-- JS String.prototype.trim. -/
def jsTrim (s : String) : String :=
  String.mk
    (((s.toList.dropWhile jsWhitespace).reverse.dropWhile
        jsWhitespace).reverse)

/-- JS String.prototype.startsWith. -/
def jsStartsWith (s pre : String) : Bool :=
  pre.toList.isPrefixOf s.toList

/-- Structural worker for jsSplit.  The fuel argument only makes the
recursion structural; with fuel at least the input length plus one the
fuel never runs out, since every step consumes at least one character. -/
def jsSplitAux (sep : List Char) :
    Nat → List Char → List Char → List (List Char)
  | _, [], acc => [acc.reverse]
  | 0, l, acc => [acc.reverse ++ l]
  | fuel + 1, c :: rest, acc =>
    if sep.isPrefixOf (c :: rest) then
      acc.reverse ::
        jsSplitAux sep fuel (List.drop (sep.length - 1) rest) []
    else
      jsSplitAux sep fuel rest (c :: acc)

/-- JS String.prototype.split with a non-empty string separator (the
source splits on CRLF, on a comma and on a slash). -/
def jsSplit (s sep : String) : List String :=
  match sep.toList with
  | [] => [s]
  | c :: cs =>
    (jsSplitAux (c :: cs) (s.toList.length + 1) s.toList []).map String.mk

/-! ## Regular expressions (lines 77, 82, 95, 96)

The four marker regexes are embedded as an explicit AST together with a
backtracking matcher.  The matcher returns the list of all ways a
pattern can match a prefix of the input, in JavaScript backtracking
priority order (alternation left first, lazy plus shortest first, greedy
optional longest first); exec takes the first overall match at the
leftmost matching start position, exactly the JS RegExp.exec search. -/

/-- Character classes occurring in the four regexes.  With the u flag
and no s flag, backslash-d is [0-9], backslash-w is [A-Za-z0-9_] and dot
matches everything but line terminators. -/
inductive CC where
  | digit
  | word
  | any
  deriving DecidableEq

def CC.matchesChar : CC → Char → Bool
  | .digit, c => c.isDigit
  | .word, c => c.isAlphanum || c == '_'
  | .any, c => !(c == '\n' || c == '\r' || c == '\u2028' || c == '\u2029')

/-- Regex AST: exactly the constructs used by the four source regexes. -/
inductive RE where
  | strLit (s : List Char)
  | cc (c : CC)
  | seq (r1 r2 : RE)
  | alt (r1 r2 : RE)
  | opt (c : CC)
  | lazyPlus (c : CC)
  | repN (c : CC) (n : Nat)
  | grp (i : Nat) (r : RE)

/-- Suffixes reachable by consuming one-or-more class characters,
shortest consumption first (lazy order). -/
def lazyPlusAux (c : CC) : List Char → List (List Char)
  | [] => []
  | ch :: rest =>
    if c.matchesChar ch then rest :: lazyPlusAux c rest else []

/-- Consume exactly n class characters. -/
def repNAux (c : CC) : Nat → List Char → Option (List Char)
  | 0, s => some s
  | _ + 1, [] => none
  | n + 1, ch :: rest =>
    if c.matchesChar ch then repNAux c n rest else none

/-- All matches of a regex against a prefix of the input, in JS
backtracking priority order.  Each result is the remaining suffix
together with the captures (group index, captured characters) recorded
along that alternative. -/
def mmatch : RE → List Char → List (List Char × List (Nat × List Char))
  | .strLit l, s =>
    if l.isPrefixOf s then [(s.drop l.length, [])] else []
  | .cc _, [] => []
  | .cc c, ch :: rest =>
    if c.matchesChar ch then [(rest, [])] else []
  | .seq r1 r2, s =>
    (mmatch r1 s).flatMap fun p =>
      (mmatch r2 p.1).map fun q => (q.1, p.2 ++ q.2)
  | .alt r1 r2, s => mmatch r1 s ++ mmatch r2 s
  | .opt _, [] => [([], [])]
  | .opt c, ch :: rest =>
    if c.matchesChar ch then [(rest, []), (ch :: rest, [])]
    else [(ch :: rest, [])]
  | .lazyPlus c, s => (lazyPlusAux c s).map fun s2 => (s2, [])
  | .repN c n, s =>
    match repNAux c n s with
    | some s2 => [(s2, [])]
    | none => []
  | .grp i r, s =>
    (mmatch r s).map fun p =>
      (p.1, (i, s.take (s.length - p.1.length)) :: p.2)

/-- Unanchored search: try each start position left to right and take
the first (highest-priority) match there, as RegExp.exec does. -/
def execCore (re : RE) : List Char → Option (List (Nat × List Char))
  | [] => ((mmatch re []).head?).map Prod.snd
  | ch :: rest =>
    match (mmatch re (ch :: rest)).head? with
    | some p => some p.2
    | none => execCore re rest

def execRE (re : RE) (s : String) : Option (List (Nat × List Char)) :=
  execCore re s.toList

/-- Captured group i of an exec result (undefined when the group did not
participate; in these regexes every group participates on a match). -/
def capture (caps : List (Nat × List Char)) (i : Nat) : Option String :=
  (caps.find? (fun p => p.1 == i)).map fun p => String.mk p.2

def strR (s : String) : RE := .strLit s.toList

/-- One or two digits, greedy. -/
def ddR : RE := .seq (.cc .digit) (.opt .digit)

/-- Line 77: the home page updated regex. -/
def HOME_PAGE_UPDATED_RE : RE :=
  .seq (strR "Data last updated ")
    (.seq (.lazyPlus .any)
      (.seq (strR "day")
        (.seq (.alt (strR "&nbsp;") (strR " "))
          (.seq (.grp 1 ddR)
            (.seq (.alt (strR "&nbsp;") (strR " "))
              (.seq (.grp 2 (.lazyPlus .word))
                (.seq (strR " ") (.grp 3 (.repN .digit 4)))))))))

/-- Line 82: the data page updated regex. -/
def DATA_PAGE_UPDATED_RE : RE :=
  .seq (strR "Updated:")
    (.seq (.grp 1 (.alt (.seq (strR " ") ddR) (strR "&nbsp;")))
      (.seq (strR " ")
        (.seq (.grp 2 (.lazyPlus .word))
          (.seq (strR " ")
            (.seq (.grp 3 (.repN .digit 4))
              (.seq (strR " ")
                (.seq (.grp 4 ddR)
                  (.seq (strR ":")
                    (.seq (.grp 5 ddR)
                      (.seq (strR " ")
                        (.seq (.grp 6 (.alt (strR "a") (strR "p")))
                          (strR "m"))))))))))))

/-- Line 95: the weekly week regex, Data from (.+?) up to a dot. -/
def WEEKLY_WEEK_RE : RE :=
  .seq (strR "Data from ") (.seq (.grp 1 (.lazyPlus .any)) (strR "."))

/-- Line 96: the vax totals week regex, From (.+?) up to a less-than. -/
def VAX_TOTALS_WEEK_RE : RE :=
  .seq (strR "From ") (.seq (.grp 1 (.lazyPlus .any)) (strR "<"))

/-! ## Marker parsers (lines 33-48, 78-97) -/

/-- The MONTHS constant object (lines 33-48). -/
def MONTHS : List (String × String) :=
  [("January", "01"), ("February", "02"), ("March", "03"), ("April", "04"),
   ("May", "05"), ("June", "06"), ("July", "07"), ("August", "08"),
   ("September", "09"), ("October", "10"), ("November", "11"),
   ("December", "12")]

/-- Template interpolation of MONTHS[month]: an absent key interpolates
the JS sentinel undefined as the text undefined. -/
def monthsLookup (m : String) : String :=
  ((MONTHS.find? (fun p => p.1 == m)).map Prod.snd).getD "undefined"

/-- JS String.prototype.padStart(2, '0'). -/
def padStart2 (s : String) : String :=
  if s.length ≥ 2 then s
  else String.mk (List.replicate (2 - s.length) '0') ++ s

/-- The nested conditional on lines 87-93 choosing the 24-hour hour
text: 12 am becomes 00, 12 pm stays 12, other am hours are zero-padded,
other pm hours gain 12 (interpolated as a plain number). -/
def hour24 (hourNum : Nat) (isAM : Bool) : String :=
  if hourNum == 12 then (if isAM then "00" else "12")
  else if isAM then padStart2 (toString hourNum)
  else toString (hourNum + 12)

/-- Lines 83-94: parseDataPageDate.  A failed exec returns null and the
destructuring on line 84 throws, modelled as none.  On a match all six
groups participate, so the capture binds always succeed. -/
def parseDataPageDate (text : String) : Option String := do
  let caps ← execRE DATA_PAGE_UPDATED_RE text
  let day ← capture caps 1
  let month ← capture caps 2
  let year ← capture caps 3
  let hour ← capture caps 4
  let minute ← capture caps 5
  let aOrP ← capture caps 6
  let hourNum := jsToNat hour
  let isAM := aOrP == "a"
  pure (year ++ "-" ++ monthsLookup month ++ "-" ++
    (if day == "&nbsp;" then "01" else padStart2 (day.drop 1)) ++
    "T" ++ hour24 hourNum isAM ++ ":" ++ minute ++ ":00+10:00")

/-- Lines 78-81: parseHomePageDate, same throwing destructure. -/
def parseHomePageDate (text : String) : Option String := do
  let caps ← execRE HOME_PAGE_UPDATED_RE text
  let day ← capture caps 1
  let month ← capture caps 2
  let year ← capture caps 3
  pure (year ++ "-" ++ monthsLookup month ++ "-" ++ padStart2 day)

/-- Line 97: parseWeek re text = re.exec(text)[1]; indexing the null of
a failed exec throws, modelled as none. -/
def parseWeek (re : RE) (text : String) : Option String :=
  (execRE re text).bind fun caps => capture caps 1

/-! ## Batched-result routing (lines 220-237) -/

/-- A JS property value in the returned response tree: either the
sentinel undefined or a string. -/
inductive JVal where
  | undef
  | str (v : String)
  deriving DecidableEq

/-- The accumulator object acc built by the routing loop.  A none
section mirrors the section object not having been created yet by the
conditional-assignment operators on lines 227-230 (indistinguishable
from an empty object in the final merge, which spreads it). -/
structure StatsAcc where
  weekly : Option (List (String × String))
  vaxPct : Option (List (String × String))
  vaxTot : Option (List (String × String))
  deriving DecidableEq

def emptyAcc : StatsAcc := ⟨none, none, none⟩

/-- JS property assignment obj[key] = v on a string-keyed object:
overwrite in place if the key exists, else append. -/
def jsSet (l : List (String × String)) (k v : String) :
    List (String × String) :=
  if l.any (fun p => p.1 == k) then
    l.map (fun p => if p.1 == k then (k, v) else p)
  else l ++ [(k, v)]

/-- One iteration of the routing loop (lines 222-235) on a returned
pair of upstream record id and statistic text.  When the id is in
neither table, key is undefined and key.startsWith on line 228 throws,
modelled as none. -/
def routeOne (acc : StatsAcc) (p : String × String) : Option StatsAcc :=
  match weeklyIds.fromId p.1 with
  | some key =>
    some { acc with weekly := some (jsSet (acc.weekly.getD []) key (jsTrim p.2)) }
  | none =>
    match vaxIds.fromId p.1 with
    | none => none
    | some key =>
      if jsStartsWith key "dose" then
        some { acc with vaxPct := some (jsSet (acc.vaxPct.getD []) key (jsTrim p.2)) }
      else
        some { acc with vaxTot := some (jsSet (acc.vaxTot.getD []) key (jsTrim p.2)) }

/-- The whole routing pass: one fold over the flat batched response. -/
def routeStats (data : List (String × String)) : Option StatsAcc :=
  data.foldlM routeOne emptyAcc

/-! ## The Upstream Aggregator (lines 191-247)

The four concurrently dispatched upstream calls are supplied as oracle
results; resolve consumes them in Promise.all array order. -/

/-- Results of the (up to four) upstream fetches, as the resolver would
observe them: the weekly data-page paragraph, the vaccination
percentages home-page paragraph, the vaccination totals week paragraph,
and the batched statistic_block data rows (id, field_statistic_heading).
A non-dispatched call's entry is simply never consumed. -/
structure Oracles where
  weeklyText : Except String String
  vaxPctsText : Except String String
  vaxTotalsText : Except String String
  statsData : Except String (List (String × String))

/-- Error used for a TypeError thrown by a marker parser whose regex did
not match (the JS message text is immaterial to the claims). -/
def parseFail : String := "TypeError: regex did not match"

/-- Error used for the TypeError thrown on line 228 when a returned id
is in neither table. -/
def routeFail : String := "TypeError: key is undefined"

def ofParse (o : Option String) : Except String String :=
  match o with
  | some v => .ok v
  | none => .error parseFail

/-- Lines 192-201: the first element of the Promise.all array.  One
paragraph fetch shared by both weekly markers, dispatched iff either is
selected; each parser runs only when its own marker was selected; with
neither selected the slot is the empty array, destructured to a pair of
undefined. -/
def weeklySlot (sel : Selection) (o : Oracles) :
    Except String (Option String × Option String) :=
  if weeklyUpdatedSel sel || weeklyWeekSel sel then
    match o.weeklyText with
    | .error e => .error e
    | .ok text => do
      let u ← if weeklyUpdatedSel sel then
          (ofParse (parseDataPageDate text)).map some
        else .ok none
      let w ← if weeklyWeekSel sel then
          (ofParse (parseWeek WEEKLY_WEEK_RE text)).map some
        else .ok none
      .ok (u, w)
  else .ok (none, none)

/-- Lines 202-204: the vaccination percentages updated slot. -/
def vaxPctsSlot (sel : Selection) (o : Oracles) :
    Except String (Option String) :=
  if vaxPctUpdatedSel sel then
    match o.vaxPctsText with
    | .error e => .error e
    | .ok text => (ofParse (parseHomePageDate text)).map some
  else .ok none

/-- Lines 205-207: the vaccination totals week slot. -/
def vaxTotalsSlot (sel : Selection) (o : Oracles) :
    Except String (Option String) :=
  if vaxTotalsWeekSel sel then
    match o.vaxTotalsText with
    | .error e => .error e
    | .ok text => (ofParse (parseWeek VAX_TOTALS_WEEK_RE text)).map some
  else .ok none

/-- Lines 208-238: the batched statistic call slot, guarded by
idsToFetch.length; when skipped its contribution is the empty object. -/
def statsSlot (sel : Selection) (o : Oracles) : Except String StatsAcc :=
  if statsCallIssued sel then
    match o.statsData with
    | .error e => .error e
    | .ok data =>
      match routeStats data with
      | some acc => .ok acc
      | none => .error routeFail
  else .ok emptyAcc

/-- The returned response tree (lines 240-246), with the two fixed vax
wrapper levels flattened into the three section objects.  Each section
is an association list in property-creation order. -/
structure RespTree where
  weekly : List (String × JVal)
  vaxPercentages : List (String × JVal)
  vaxTotals : List (String × JVal)
  deriving DecidableEq

instance {ε α : Type} [DecidableEq ε] [DecidableEq α] :
    DecidableEq (Except ε α) := fun x y =>
  match x, y with
  | .ok a, .ok b =>
    match decEq a b with
    | isTrue h => isTrue (by rw [h])
    | isFalse h => isFalse (fun hh => h (Except.ok.inj hh))
  | .ok _, .error _ => isFalse (fun hh => Except.noConfusion hh)
  | .error _, .ok _ => isFalse (fun hh => Except.noConfusion hh)
  | .error a, .error b =>
    match decEq a b with
    | isTrue h => isTrue (by rw [h])
    | isFalse h => isFalse (fun hh => h (Except.error.inj hh))

def jopt : Option String → JVal
  | none => .undef
  | some v => .str v

/-- Lines 240-246: the object literal returned by the resolver.  The
spreads insert the routed stats first; the explicit updated and week
properties follow (the routed keys are stat names, never the literal
updated or week, so plain append is the exact property order). -/
def mkTree (wu ww pu tw : Option String) (acc : StatsAcc) : RespTree where
  weekly :=
    ((acc.weekly.getD []).map (fun p => (p.1, JVal.str p.2))) ++
      [("updated", jopt wu), ("week", jopt ww)]
  vaxPercentages :=
    ((acc.vaxPct.getD []).map (fun p => (p.1, JVal.str p.2))) ++
      [("updated", jopt pu)]
  vaxTotals :=
    ((acc.vaxTot.getD []).map (fun p => (p.1, JVal.str p.2))) ++
      [("week", jopt tw)]

/-- Lines 177-247: the stats resolver.  Awaits the four Promise.all
slots and merges them into the response tree. -/
def resolve (sel : Selection) (o : Oracles) : Except String RespTree := do
  let ww ← weeklySlot sel o
  let pu ← vaxPctsSlot sel o
  let tw ← vaxTotalsSlot sel o
  let acc ← statsSlot sel o
  pure (mkTree ww.1 ww.2 pu tw acc)

/-- Number of upstream calls the resolver dispatches for a selection:
one per demanded marker slot plus the batched call when issued. -/
def upstreamCallCount (sel : Selection) : Nat :=
  (if weeklyUpdatedSel sel || weeklyWeekSel sel then 1 else 0) +
  (if vaxPctUpdatedSel sel then 1 else 0) +
  (if vaxTotalsWeekSel sel then 1 else 0) +
  (if statsCallIssued sel then 1 else 0)

/-- Keys of a response-tree section that carry a defined (non-undefined)
value; JSON and GraphQL serialisation keep exactly these. -/
def definedKeys (l : List (String × JVal)) : List String :=
  (l.filter (fun p => match p.2 with | .undef => false | .str _ => true)).map
    Prod.fst

/-- The defined entries of the IN filter value: what the set of upstream
record ids actually sent to the batched call consists of (qs.stringify
skips undefined array members). -/
def definedIds (sel : Selection) : List String :=
  (idsToFetch sel).reduceOption

/-- Selected keys of the vax percentages sub-object (empty when the
sub-object or the vax section is unselected). -/
def vaxPctSelKeys (sel : Selection) : List String :=
  match sel.vax with
  | some v => v.percentages.getD []
  | none => []

/-- Selected keys of the vax totals sub-object. -/
def vaxTotSelKeys (sel : Selection) : List String :=
  match sel.vax with
  | some v => v.totals.getD []
  | none => []

/-- A selection is schema-valid when every selected leaf is a field the
GraphQL schema declares for its object type; the GraphQL layer validates
queries against the schema before the resolver runs. -/
def ValidSel (sel : Selection) : Prop :=
  (∀ k ∈ sel.weekly.getD [],
    k = "updated" ∨ k = "week" ∨ k ∈ weeklyStatNames) ∧
  (∀ k ∈ vaxPctSelKeys sel, k = "updated" ∨ k ∈ vaxPctStatNames) ∧
  (∀ k ∈ vaxTotSelKeys sel, k = "week" ∨ k ∈ vaxTotalStatNames)

/-- Number of upstream fetches serving the two weekly markers: the
single shared paragraph fetch, dispatched iff either marker is
selected (line 192). -/
def weeklyMarkerFetchCount (sel : Selection) : Nat :=
  if weeklyUpdatedSel sel || weeklyWeekSel sel then 1 else 0

/-- Invariant of the routing loop used to prove the merge-omission
claim: every key of each accumulator section is a stat name of that
section that the caller selected there. -/
def AccOk (sel : Selection) (acc : StatsAcc) : Prop :=
  (∀ k ∈ (acc.weekly.getD []).map Prod.fst,
    k ∈ sel.weekly.getD [] ∧ k ∈ weeklyStatNames) ∧
  (∀ k ∈ (acc.vaxPct.getD []).map Prod.fst,
    k ∈ vaxPctSelKeys sel ∧ k ∈ vaxPctStatNames) ∧
  (∀ k ∈ (acc.vaxTot.getD []).map Prod.fst,
    k ∈ vaxTotSelKeys sel ∧ k ∈ vaxTotalStatNames)

/-! ## The abcVaccinationStats resolver (lines 425-449 of the
concatenated source, i.e. the vaccination CSV resolver)

Rates are modelled in exact rational arithmetic.  JavaScript computes
them in IEEE doubles; on the decimal inputs of the claim the double
results round to the same two-decimal strings (62.45 - 62.10 evaluates
to 0.35000000000000142, whose toFixed(2) is 0.35). -/

/-- Exact rational values for the vaccination-rate arithmetic: a
numerator and positive denominator, not kept normalised (every use here
compares rendered strings, never raw pairs). -/
structure ExactQ where
  num : Int
  den : Nat
  deriving DecidableEq

def ExactQ.subQ (a b : ExactQ) : ExactQ :=
  ⟨a.num * b.den - b.num * a.den, a.den * b.den⟩

def ExactQ.negQ (a : ExactQ) : ExactQ := ⟨-a.num, a.den⟩

/-- JS Number() on the simple decimal strings the CSV feed carries
(optional minus sign, digits, optional fraction); anything else is NaN,
modelled as none. -/
def parseJsNumber (s : String) : Option ExactQ :=
  let neg := jsStartsWith s "-"
  let body := if neg then s.drop 1 else s
  let q? : Option ExactQ :=
    match jsSplit body "." with
    | [i] =>
      if i.length > 0 && i.toList.all Char.isDigit then
        some ⟨jsToNat i, 1⟩
      else none
    | [i, f] =>
      if i.length > 0 && i.toList.all Char.isDigit &&
          f.length > 0 && f.toList.all Char.isDigit then
        some ⟨jsToNat i * 10 ^ f.length + jsToNat f, 10 ^ f.length⟩
      else none
    | _ => none
  q?.map (fun q => if neg then q.negQ else q)

/-- Digit part of toFixed(2) for a non-negative scaled integer. -/
def toFixed2Nat (n : Nat) : String :=
  toString (n / 100) ++ "." ++ padStart2 (toString (n % 100))

/-- The integer closest to 100 times a non-negative rational, ties
towards the larger: the floor of 100 q + 1/2, i.e. of
(200 num + den) / (2 den). -/
def ratHalfUpNat (q : ExactQ) : Nat :=
  ((200 * q.num + q.den) / ((2 * q.den : Nat) : Int)).toNat

/-- JS Number.prototype.toFixed(2): the integer n minimising the
distance of n / 100 to the value, ties towards the larger n, applied to
the absolute value with the sign re-attached (the value is negative
exactly when its numerator is). -/
def toFixed2 (q : ExactQ) : String :=
  if q.num < 0 then "-" ++ toFixed2Nat (ratHalfUpNat q.negQ)
  else toFixed2Nat (ratHalfUpNat q)

/-- NaN propagation: toFixed on a NaN renders the string NaN. -/
def toFixedOpt (q? : Option ExactQ) : String :=
  match q? with
  | some q => toFixed2 q
  | none => "NaN"

def optSub (a b : Option ExactQ) : Option ExactQ :=
  match a, b with
  | some x, some y => some (x.subQ y)
  | _, _ => none

/-- The record returned by the vaccination resolver.  vax2Rate is an
Option because the raw CSV cell is passed through unparsed and may be
the JS sentinel undefined when the row is short. -/
structure VaccinationStats where
  updated : String
  vaxRate : String
  vaxRateDelta : String
  vax2Rate : Option String
  vax2RateDelta : String
  deriving DecidableEq

/-- Lines 440-448: from the destructured yesterday and today VIC rows,
build the result record.  Cell reads are row[0], row[3], row[5]; a
missing cell is undefined: Number(undefined) is NaN, while
today.split('/') on line 442 would throw (today is always present since
a split row has at least one cell). -/
def vaccinationCompute (yRow tRow : List String) :
    Option VaccinationStats := do
  let today ← tRow[0]?
  let vaxRate? := (tRow[3]?).bind parseJsNumber
  pure
    { updated := String.intercalate "-" (jsSplit today "/"),
      vaxRate := toFixedOpt vaxRate?,
      vaxRateDelta :=
        toFixedOpt (optSub vaxRate? ((yRow[3]?).bind parseJsNumber)),
      vax2Rate := tRow[5]?,
      vax2RateDelta :=
        toFixedOpt (optSub ((tRow[5]?).bind parseJsNumber)
          ((yRow[5]?).bind parseJsNumber)) }

/-- Lines 434-448: the whole vaccination resolver on the fetched CSV
text: split on CRLF, keep the last 18 lines, split each on commas, keep
the rows whose second cell is VIC, and destructure the first two such
rows as yesterday and today (fewer than two VIC rows makes the
destructuring throw, modelled as none). -/
def abcVaccinationResolve (csv : String) : Option VaccinationStats := do
  let lines := jsSplit csv "\r\n"
  let rows := (lines.drop (lines.length - 18)).map (fun l => jsSplit l ",")
  let vicRows := rows.filter (fun r => r[1]? == some "VIC")
  let yRow ← vicRows[0]?
  let tRow ← vicRows[1]?
  vaccinationCompute yRow tRow

/-- The concrete CSV fragment used to witness claim C6: two days of
rows, the VIC first-dose rate moving from 62.10 to 62.45 and the
second-dose rate from 70.00 to 70.35. -/
def exampleCsv : String :=
  "2022/09/15,NSW,1,50.00,2,60.00\r\n" ++
  "2022/09/15,VIC,1,62.10,2,70.00\r\n" ++
  "2022/09/16,NSW,1,50.50,2,60.50\r\n" ++
  "2022/09/16,VIC,1,62.45,2,70.35"

/-! ## Claims C1 and C2 -/

/-- C1 (code bug): for the caller field selection selecting only the
weekly week marker, the selection contains zero stat fields, yet
idsToFetch is the non-empty list containing the single entry undefined
(weeklyIds.fromName applied to the leaf named week, which the filter at
line 182 keeps because it only removes updated), so the guard
idsToFetch.length at line 208 is truthy and the batched statistic call
IS issued, with undefined inside its IN filter value. -/
theorem C1_week_leaf_pollutes_batched_call :
    idsToFetch { weekly := some ["week"], vax := none } = [none] ∧
    statsCallIssued { weekly := some ["week"], vax := none } = true ∧
    specStatNamesRequested { weekly := some ["week"], vax := none } = [] := by
  decide

/-- C2: the identifier bijection round-trips.  The ten weekly stat names
and the seven vaccination stat names are exactly the keys of the two id
tables; for each such name, fromName followed by fromId is the identity;
fromName is total and injective on its table's names; every stat name
belongs to exactly one section (the three sections' name lists are
pairwise disjoint); and no upstream record ID is shared between the
weekly and vaccination tables. -/
theorem C2_identifier_bijection :
    (weeklyIdsTable.map Prod.fst = weeklyStatNames ∧
     vaxIdsTable.map Prod.fst = vaxPctStatNames ++ vaxTotalStatNames ∧
     weeklyStatNames.length = 10 ∧
     (vaxPctStatNames ++ vaxTotalStatNames).length = 7) ∧
    (∀ n ∈ weeklyStatNames,
      (weeklyIds.fromName n).bind weeklyIds.fromId = some n) ∧
    (∀ n ∈ vaxPctStatNames ++ vaxTotalStatNames,
      (vaxIds.fromName n).bind vaxIds.fromId = some n) ∧
    (∀ n ∈ weeklyStatNames, (weeklyIds.fromName n).isSome = true) ∧
    (∀ n ∈ vaxPctStatNames ++ vaxTotalStatNames,
      (vaxIds.fromName n).isSome = true) ∧
    (∀ n₁ ∈ weeklyStatNames, ∀ n₂ ∈ weeklyStatNames,
      weeklyIds.fromName n₁ = weeklyIds.fromName n₂ → n₁ = n₂) ∧
    (∀ n₁ ∈ vaxPctStatNames ++ vaxTotalStatNames,
      ∀ n₂ ∈ vaxPctStatNames ++ vaxTotalStatNames,
        vaxIds.fromName n₁ = vaxIds.fromName n₂ → n₁ = n₂) ∧
    (∀ n ∈ weeklyStatNames,
      n ∉ vaxPctStatNames ∧ n ∉ vaxTotalStatNames) ∧
    (∀ n ∈ vaxPctStatNames, n ∉ vaxTotalStatNames) ∧
    (∀ i ∈ weeklyIdsTable.map Prod.snd, i ∉ vaxIdsTable.map Prod.snd) := by
  decide

/-- Witness for C2 at concrete inputs: the round trip at totalDeaths and
dose1, and the id disjointness at totalDeaths' upstream record id. -/
theorem C2_identifier_bijection_witness :
    (weeklyIds.fromName "totalDeaths").bind weeklyIds.fromId =
      some "totalDeaths" ∧
    (vaxIds.fromName "dose1").bind vaxIds.fromId = some "dose1" ∧
    "69a44e8d-e04b-4c9a-ad7e-4dda9c662ad2" ∉ vaxIdsTable.map Prod.snd :=
  ⟨C2_identifier_bijection.2.1 "totalDeaths" (by decide),
   C2_identifier_bijection.2.2.1 "dose1" (by decide),
   C2_identifier_bijection.2.2.2.2.2.2.2.2.2
     "69a44e8d-e04b-4c9a-ad7e-4dda9c662ad2" (by decide)⟩

/-! ## Claim C5: data-page date parsing -/

/-- C5: the two boundary examples of parseDataPageDate, and the general
12-to-24-hour conversion of the hour field: 12 am becomes 00, 12 pm
stays 12, other pm hours gain 12 and other am hours are zero-padded. -/
theorem C5_data_page_date_parsing :
    parseDataPageDate "Updated: 16 September 2022 2:30 pm" =
      some "2022-09-16T14:30:00+10:00" ∧
    parseDataPageDate "Updated:&nbsp; September 2022 9:05 am" =
      some "2022-09-01T09:05:00+10:00" ∧
    hour24 12 true = "00" ∧
    hour24 12 false = "12" ∧
    (∀ h : Nat, h ≠ 12 → hour24 h false = toString (h + 12)) ∧
    (∀ h : Nat, h ≠ 12 → hour24 h true = padStart2 (toString h)) := by
  refine ⟨by decide, by decide, rfl, rfl, ?_, ?_⟩ <;>
    · intro h hh
      simp [hour24, hh]

/-- Witness for C5's general conjuncts at 2 pm and 9 am. -/
theorem C5_data_page_date_parsing_witness :
    hour24 2 false = toString (2 + 12) ∧
    hour24 9 true = padStart2 (toString 9) :=
  ⟨C5_data_page_date_parsing.2.2.2.2.1 2 (by decide),
   C5_data_page_date_parsing.2.2.2.2.2 9 (by decide)⟩

/-! ## Claim C6: vaccination delta -/

set_option maxRecDepth 8000 in
/-- C6: on the example CSV the VIC first-dose rate moves from 62.10 to
62.45 and the computed delta renders as 0.35; in general the deltas are
today minus yesterday of the numerically parsed cells, formatted to two
decimals, and vax2Rate is the raw today cell passed through unparsed
while its delta still parses it numerically. -/
theorem C6_vaccination_delta :
    abcVaccinationResolve exampleCsv =
      some { updated := "2022-09-16", vaxRate := "62.45",
             vaxRateDelta := "0.35", vax2Rate := some "70.35",
             vax2RateDelta := "0.35" } ∧
    (∀ yRow tRow r, vaccinationCompute yRow tRow = some r →
      r.vax2Rate = tRow[5]? ∧
      r.vaxRateDelta =
        toFixedOpt (optSub ((tRow[3]?).bind parseJsNumber)
          ((yRow[3]?).bind parseJsNumber)) ∧
      r.vax2RateDelta =
        toFixedOpt (optSub ((tRow[5]?).bind parseJsNumber)
          ((yRow[5]?).bind parseJsNumber))) := by
  constructor
  · decide
  · intro yRow tRow r h
    cases h0 : tRow[0]? with
    | none => simp [vaccinationCompute, h0] at h
    | some today =>
      simp only [vaccinationCompute, h0, Option.bind_eq_bind,
        Option.some_bind, Option.pure_def, Option.some.injEq] at h
      subst h
      exact ⟨rfl, rfl, rfl⟩

/-- Witness for C6's general conjunct at the example's two VIC rows. -/
theorem C6_vaccination_delta_witness :
    ({ updated := "2022-09-16", vaxRate := "62.45", vaxRateDelta := "0.35",
       vax2Rate := some "70.35",
       vax2RateDelta := "0.35" } : VaccinationStats).vax2Rate =
      (["2022/09/16", "VIC", "1", "62.45", "2", "70.35"] :
        List String)[5]? :=
  (C6_vaccination_delta.2
    ["2022/09/15", "VIC", "1", "62.10", "2", "70.00"]
    ["2022/09/16", "VIC", "1", "62.45", "2", "70.35"]
    _ (by decide)).1


/-! ## Claim C7: batched-result routing -/

/-- C7: each pair of the batched response whose id is in the static
tables is routed by a single table lookup into the section that owns the
corresponding stat identifier, and stored under that identifier (with
the JS trim applied to the value): weekly ids go to the weekly section,
vaccination ids whose stat name starts with dose go to vax.percentages,
all other vaccination ids go to vax.totals; the whole pass is one fold
over the flat list. -/
theorem C7_batched_result_routing :
    ∀ (acc : StatsAcc) (id v key : String),
      (weeklyIds.fromId id = some key →
        routeOne acc (id, v) =
          some { acc with
                 weekly := some (jsSet (acc.weekly.getD []) key (jsTrim v)) }) ∧
      (weeklyIds.fromId id = none → vaxIds.fromId id = some key →
        jsStartsWith key "dose" = true →
        routeOne acc (id, v) =
          some { acc with
                 vaxPct := some (jsSet (acc.vaxPct.getD []) key (jsTrim v)) }) ∧
      (weeklyIds.fromId id = none → vaxIds.fromId id = some key →
        jsStartsWith key "dose" = false →
        routeOne acc (id, v) =
          some { acc with
                 vaxTot := some (jsSet (acc.vaxTot.getD []) key (jsTrim v)) }) ∧
      (∀ data : List (String × String),
        routeStats data = data.foldlM routeOne emptyAcc) := by
  intro acc id v key
  refine ⟨fun h1 => ?_, fun h1 h2 h3 => ?_, fun h1 h2 h3 => ?_,
    fun _ => rfl⟩
  · simp [routeOne, h1]
  · simp [routeOne, h1, h2, h3]
  · simp [routeOne, h1, h2, h3]

/-- Witness for C7 at one id of each kind: the totalDeaths weekly id,
the dose1 percentage id and the newDoses totals id. -/
theorem C7_batched_result_routing_witness :
    routeOne emptyAcc ("69a44e8d-e04b-4c9a-ad7e-4dda9c662ad2", "9") =
      some { emptyAcc with
             weekly := some (jsSet (emptyAcc.weekly.getD [])
               "totalDeaths" (jsTrim "9")) } ∧
    routeOne emptyAcc ("d675c960-cb31-4d94-8b18-dd31b6454aff", "9") =
      some { emptyAcc with
             vaxPct := some (jsSet (emptyAcc.vaxPct.getD [])
               "dose1" (jsTrim "9")) } ∧
    routeOne emptyAcc ("324e92eb-e063-4b00-89f5-50413978d839", "9") =
      some { emptyAcc with
             vaxTot := some (jsSet (emptyAcc.vaxTot.getD [])
               "newDoses" (jsTrim "9")) } :=
  ⟨(C7_batched_result_routing emptyAcc _ "9" "totalDeaths").1 (by decide),
   (C7_batched_result_routing emptyAcc _ "9" "dose1").2.1
     (by decide) (by decide) (by decide),
   (C7_batched_result_routing emptyAcc _ "9" "newDoses").2.2.1
     (by decide) (by decide) (by decide)⟩

/-! ## Claim C8: a regex mismatch is a hard failure -/

/-- C8: whenever the expected pattern does not match the fetched marker
text, the corresponding parsing function throws (none) rather than
returning any default or partial value, and the resolver in turn fails
the whole request (shown for the weekly data-page marker, the first
Promise.all slot). -/
theorem C8_regex_mismatch_throws :
    ∀ text : String,
      (execRE HOME_PAGE_UPDATED_RE text = none →
        parseHomePageDate text = none) ∧
      (execRE DATA_PAGE_UPDATED_RE text = none →
        parseDataPageDate text = none) ∧
      (∀ re : RE, execRE re text = none → parseWeek re text = none) ∧
      (∀ sel o, weeklyUpdatedSel sel = true → o.weeklyText = .ok text →
        parseDataPageDate text = none →
        resolve sel o = .error parseFail) ∧
      (∀ sel o, weeklyWeekSel sel = true → o.weeklyText = .ok text →
        parseWeek WEEKLY_WEEK_RE text = none →
        (∀ u, (weeklyUpdatedSel sel = true →
          parseDataPageDate text = some u) →
          resolve sel o = .error parseFail)) := by
  intro text
  refine ⟨fun h => ?_, fun h => ?_, fun re h => ?_,
    fun sel o hsel ho hp => ?_, fun sel o hsel ho hp u hu => ?_⟩
  · simp [parseHomePageDate, h]
  · simp [parseDataPageDate, h]
  · simp [parseWeek, h]
  · simp [resolve, weeklySlot, hsel, ho, hp, ofParse,
      Bind.bind, Except.bind, Except.map]
  · cases hu2 : weeklyUpdatedSel sel with
    | false =>
      simp [resolve, weeklySlot, hsel, hu2, ho, hp, ofParse,
        Bind.bind, Except.bind, Except.map]
    | true =>
      simp [resolve, weeklySlot, hsel, hu2, ho, hp, hu hu2, ofParse,
        Bind.bind, Except.bind, Except.map]

/-- Witness for C8 on the non-matching text hello: all four patterns
fail to match, every parser throws, and a request selecting the weekly
updated marker fails as a whole. -/
theorem C8_regex_mismatch_throws_witness :
    parseHomePageDate "hello" = none ∧
    parseDataPageDate "hello" = none ∧
    parseWeek WEEKLY_WEEK_RE "hello" = none ∧
    parseWeek VAX_TOTALS_WEEK_RE "hello" = none ∧
    resolve { weekly := some ["updated"], vax := none }
      { weeklyText := .ok "hello", vaxPctsText := .ok "",
        vaxTotalsText := .ok "", statsData := .ok [] } =
      .error parseFail :=
  ⟨(C8_regex_mismatch_throws "hello").1 (by decide),
   (C8_regex_mismatch_throws "hello").2.1 (by decide),
   (C8_regex_mismatch_throws "hello").2.2.1 WEEKLY_WEEK_RE (by decide),
   (C8_regex_mismatch_throws "hello").2.2.1 VAX_TOTALS_WEEK_RE (by decide),
   (C8_regex_mismatch_throws "hello").2.2.2.1
     { weekly := some ["updated"], vax := none }
     { weeklyText := .ok "hello", vaxPctsText := .ok "",
       vaxTotalsText := .ok "", statsData := .ok [] }
     (by decide) rfl ((C8_regex_mismatch_throws "hello").2.1 (by decide))⟩

/-! ## Claim C10: shared weekly marker fetch with demand-gated parsing -/

/-- C10: the two weekly markers are served by at most one paragraph
fetch, dispatched iff at least one of them is selected, and each parser
runs only when its own marker was selected: with only week selected the
slot succeeds from the week parse alone whatever the date pattern would
do, and with only updated selected it succeeds from the date parse
alone. -/
theorem C10_shared_weekly_marker_gating :
    (∀ sel, weeklyMarkerFetchCount sel ≤ 1 ∧
      (weeklyMarkerFetchCount sel = 1 ↔
        (weeklyUpdatedSel sel || weeklyWeekSel sel) = true)) ∧
    (∀ sel o text w, weeklyWeekSel sel = true →
      weeklyUpdatedSel sel = false →
      o.weeklyText = .ok text →
      parseWeek WEEKLY_WEEK_RE text = some w →
      weeklySlot sel o = .ok (none, some w)) ∧
    (∀ sel o text u, weeklyUpdatedSel sel = true →
      weeklyWeekSel sel = false →
      o.weeklyText = .ok text →
      parseDataPageDate text = some u →
      weeklySlot sel o = .ok (some u, none)) := by
  refine ⟨fun sel => ?_, fun sel o text w hw hu ho hp => ?_,
    fun sel o text u hu hw ho hp => ?_⟩
  · cases h : (weeklyUpdatedSel sel || weeklyWeekSel sel) <;>
      simp [weeklyMarkerFetchCount, h]
  · simp [weeklySlot, hw, hu, ho, hp, ofParse,
      Bind.bind, Except.bind, Except.map]
  · simp [weeklySlot, hw, hu, ho, hp, ofParse,
      Bind.bind, Except.bind, Except.map]

/-- Witness for C10: a text that matches the week pattern but not the
date pattern still resolves the week-only weekly slot, and the
symmetric updated-only case on a text matching only the date pattern. -/
theorem C10_shared_weekly_marker_gating_witness :
    parseDataPageDate "Data from 1 - 2 Sep." = none ∧
    weeklySlot { weekly := some ["week"], vax := none }
      { weeklyText := .ok "Data from 1 - 2 Sep.", vaxPctsText := .ok "",
        vaxTotalsText := .ok "", statsData := .ok [] } =
      .ok (none, some "1 - 2 Sep") ∧
    parseWeek WEEKLY_WEEK_RE "Updated: 16 September 2022 2:30 pm" =
      none ∧
    weeklySlot { weekly := some ["updated"], vax := none }
      { weeklyText := .ok "Updated: 16 September 2022 2:30 pm",
        vaxPctsText := .ok "", vaxTotalsText := .ok "",
        statsData := .ok [] } =
      .ok (some "2022-09-16T14:30:00+10:00", none) ∧
    weeklyMarkerFetchCount { weekly := some ["week"], vax := none } = 1 :=
  ⟨by decide,
   C10_shared_weekly_marker_gating.2.1
     { weekly := some ["week"], vax := none }
     { weeklyText := .ok "Data from 1 - 2 Sep.", vaxPctsText := .ok "",
       vaxTotalsText := .ok "", statsData := .ok [] }
     "Data from 1 - 2 Sep." "1 - 2 Sep"
     (by decide) (by decide) rfl (by decide),
   by decide,
   C10_shared_weekly_marker_gating.2.2
     { weekly := some ["updated"], vax := none }
     { weeklyText := .ok "Updated: 16 September 2022 2:30 pm",
       vaxPctsText := .ok "", vaxTotalsText := .ok "",
       statsData := .ok [] }
     "Updated: 16 September 2022 2:30 pm" "2022-09-16T14:30:00+10:00"
     (by decide) (by decide) rfl (by decide),
   ((C10_shared_weekly_marker_gating.1
     { weekly := some ["week"], vax := none }).2).mpr (by decide)⟩

/-! ## Claim C4: all-or-nothing join -/

/-- C4: each dispatched upstream call that fails makes its slot fail
with that error; a failing slot makes the whole resolver fail with that
error (in Promise.all order) and no response tree is produced; and when
all four slots succeed the resolver returns the merged tree. -/
theorem C4_all_or_nothing_join :
    ∀ sel o (e : String),
      ((weeklyUpdatedSel sel || weeklyWeekSel sel) = true →
        o.weeklyText = .error e → weeklySlot sel o = .error e) ∧
      (vaxPctUpdatedSel sel = true → o.vaxPctsText = .error e →
        vaxPctsSlot sel o = .error e) ∧
      (vaxTotalsWeekSel sel = true → o.vaxTotalsText = .error e →
        vaxTotalsSlot sel o = .error e) ∧
      (statsCallIssued sel = true → o.statsData = .error e →
        statsSlot sel o = .error e) ∧
      (weeklySlot sel o = .error e → resolve sel o = .error e) ∧
      (∀ p, weeklySlot sel o = .ok p → vaxPctsSlot sel o = .error e →
        resolve sel o = .error e) ∧
      (∀ p q, weeklySlot sel o = .ok p → vaxPctsSlot sel o = .ok q →
        vaxTotalsSlot sel o = .error e → resolve sel o = .error e) ∧
      (∀ p q t, weeklySlot sel o = .ok p → vaxPctsSlot sel o = .ok q →
        vaxTotalsSlot sel o = .ok t → statsSlot sel o = .error e →
        resolve sel o = .error e) ∧
      (∀ p q t acc, weeklySlot sel o = .ok p → vaxPctsSlot sel o = .ok q →
        vaxTotalsSlot sel o = .ok t → statsSlot sel o = .ok acc →
        resolve sel o = .ok (mkTree p.1 p.2 q t acc)) := by
  intro sel o e
  refine ⟨fun h1 h2 => ?_, fun h1 h2 => ?_, fun h1 h2 => ?_,
    fun h1 h2 => ?_, fun h1 => ?_, fun p h1 h2 => ?_,
    fun p q h1 h2 h3 => ?_, fun p q t h1 h2 h3 h4 => ?_,
    fun p q t acc h1 h2 h3 h4 => ?_⟩
  · simp [weeklySlot, h1, h2]
  · simp [vaxPctsSlot, h1, h2]
  · simp [vaxTotalsSlot, h1, h2]
  · simp [statsSlot, h1, h2]
  · simp [resolve, h1, Bind.bind, Except.bind]
  · simp [resolve, h1, h2, Bind.bind, Except.bind]
  · simp [resolve, h1, h2, h3, Bind.bind, Except.bind]
  · simp [resolve, h1, h2, h3, h4, Bind.bind, Except.bind, Except.map]
  · simp [resolve, h1, h2, h3, h4, Bind.bind, Except.bind, Except.map,
      Functor.map, Pure.pure, Except.pure]

/-- Witness for C4: with the weekly updated marker and a weekly stat
selected, a failing batched call fails the whole request with its error
while the same request with a successful batched call returns the merged
tree. -/
theorem C4_all_or_nothing_join_witness :
    resolve { weekly := some ["updated", "newCases"], vax := none }
      { weeklyText := .ok "Updated: 16 September 2022 2:30 pm",
        vaxPctsText := .ok "", vaxTotalsText := .ok "",
        statsData := .error "boom" } = .error "boom" ∧
    resolve { weekly := some ["updated", "newCases"], vax := none }
      { weeklyText := .ok "Updated: 16 September 2022 2:30 pm",
        vaxPctsText := .ok "", vaxTotalsText := .ok "",
        statsData := .ok [("8e545be4-b7ab-4f9b-a04e-eb0ba4c815b8", "7")] } =
      .ok (mkTree (some "2022-09-16T14:30:00+10:00") none none none
        ⟨some [("newCases", "7")], none, none⟩) :=
  ⟨(C4_all_or_nothing_join
      { weekly := some ["updated", "newCases"], vax := none }
      { weeklyText := .ok "Updated: 16 September 2022 2:30 pm",
        vaxPctsText := .ok "", vaxTotalsText := .ok "",
        statsData := .error "boom" } "boom").2.2.2.2.2.2.2.1
    (some "2022-09-16T14:30:00+10:00", none) none none
    (by decide) (by decide) (by decide)
    ((C4_all_or_nothing_join
      { weekly := some ["updated", "newCases"], vax := none }
      { weeklyText := .ok "Updated: 16 September 2022 2:30 pm",
        vaxPctsText := .ok "", vaxTotalsText := .ok "",
        statsData := .error "boom" } "boom").2.2.2.1 (by decide) rfl),
   (C4_all_or_nothing_join
      { weekly := some ["updated", "newCases"], vax := none }
      { weeklyText := .ok "Updated: 16 September 2022 2:30 pm",
        vaxPctsText := .ok "", vaxTotalsText := .ok "",
        statsData := .ok [("8e545be4-b7ab-4f9b-a04e-eb0ba4c815b8", "7")] }
      "unused").2.2.2.2.2.2.2.2
    (some "2022-09-16T14:30:00+10:00", none) none none
    ⟨some [("newCases", "7")], none, none⟩
    (by decide) (by decide) (by decide) (by decide)⟩

/-! ## Helper lemmas for the merge-omission claims -/

theorem find?_snd_eq_of_mem {l : List (String × String)}
    (hnd : (l.map Prod.snd).Nodup) {n id : String} (hmem : (n, id) ∈ l) :
    l.find? (fun p => p.2 == id) = some (n, id) := by
  induction l with
  | nil => cases hmem
  | cons a t ih =>
    rw [List.map_cons, List.nodup_cons] at hnd
    rcases List.mem_cons.mp hmem with h1 | h1
    · subst h1
      simp [List.find?]
    · have hne : (a.2 == id) = false := by
        rw [beq_eq_false_iff_ne]
        intro he
        exact hnd.1 (he ▸ List.mem_map_of_mem Prod.snd h1)
      simp only [List.find?, hne]
      exact ih hnd.2 h1

theorem fromName_mem {l : List (String × String)} {n id : String}
    (h : (nameIdMap l).fromName n = some id) : (n, id) ∈ l := by
  simp only [nameIdMap] at h
  cases hf : l.find? (fun p => p.1 == n) with
  | none => rw [hf] at h; cases h
  | some p =>
    rw [hf] at h
    have h1 : p.1 = n := by
      have := List.find?_some hf
      simpa using this
    have h2 : p.2 = id := by simpa using h
    have h3 : p ∈ l := List.mem_of_find?_eq_some hf
    rw [← h1, ← h2]
    exact h3

theorem fromId_of_mem {l : List (String × String)}
    (hnd : (l.map Prod.snd).Nodup) {n id : String} (hmem : (n, id) ∈ l) :
    (nameIdMap l).fromId id = some n := by
  simp only [nameIdMap]
  rw [find?_snd_eq_of_mem hnd hmem]
  rfl

theorem fromId_eq_none {l : List (String × String)} {id : String}
    (h : id ∉ l.map Prod.snd) : (nameIdMap l).fromId id = none := by
  simp only [nameIdMap]
  rw [List.find?_eq_none.mpr]
  · rfl
  · intro x hx hbeq
    exact h (by
      have : x.2 = id := by simpa using hbeq
      exact this ▸ List.mem_map_of_mem Prod.snd hx)

theorem weekly_table_fst : weeklyIdsTable.map Prod.fst = weeklyStatNames := by
  decide

theorem vax_table_fst :
    vaxIdsTable.map Prod.fst = vaxPctStatNames ++ vaxTotalStatNames := by
  decide

theorem weekly_snd_nodup : (weeklyIdsTable.map Prod.snd).Nodup := by decide

theorem vax_snd_nodup : (vaxIdsTable.map Prod.snd).Nodup := by decide

theorem vax_id_not_weekly :
    ∀ i ∈ vaxIdsTable.map Prod.snd, i ∉ weeklyIdsTable.map Prod.snd := by
  decide

theorem pct_names_dose :
    ∀ k ∈ vaxPctStatNames, jsStartsWith k "dose" = true := by decide

theorem tot_names_not_dose :
    ∀ k ∈ vaxTotalStatNames, jsStartsWith k "dose" = false := by decide

theorem markers_not_stat_names :
    "updated" ∉ weeklyStatNames ∧ "week" ∉ weeklyStatNames ∧
    "updated" ∉ vaxPctStatNames ∧ "week" ∉ vaxTotalStatNames ∧
    jsStartsWith "week" "dose" = false := by decide

theorem idsToFetch_eq (sel : Selection) :
    idsToFetch sel =
      ((sel.weekly.getD []).filter notUpdated).map weeklyIds.fromName ++
      (((vaxPctSelKeys sel ++ vaxTotSelKeys sel).filter notUpdated)).map
        vaxIds.fromName := by
  unfold idsToFetch vaxPctSelKeys vaxTotSelKeys
  cases sel.weekly <;> cases sel.vax <;> rfl

theorem mem_definedIds {sel : Selection} {id : String}
    (h : id ∈ definedIds sel) :
    (∃ n ∈ (sel.weekly.getD []).filter notUpdated,
      weeklyIds.fromName n = some id) ∨
    (∃ n ∈ (vaxPctSelKeys sel ++ vaxTotSelKeys sel).filter notUpdated,
      vaxIds.fromName n = some id) := by
  unfold definedIds at h
  rw [idsToFetch_eq, List.reduceOption_append] at h
  rcases List.mem_append.mp h with h1 | h1
  · left
    have := List.reduceOption_mem_iff.mp h1
    obtain ⟨n, hn, he⟩ := List.mem_map.mp this
    exact ⟨n, hn, he⟩
  · right
    have := List.reduceOption_mem_iff.mp h1
    obtain ⟨n, hn, he⟩ := List.mem_map.mp this
    exact ⟨n, hn, he⟩

theorem jsSet_keys {l : List (String × String)} {k v a : String}
    (h : a ∈ (jsSet l k v).map Prod.fst) :
    a ∈ l.map Prod.fst ∨ a = k := by
  unfold jsSet at h
  by_cases hc : l.any (fun p => p.1 == k)
  · rw [if_pos hc, List.map_map] at h
    obtain ⟨p, hp, hfa⟩ := List.mem_map.mp h
    dsimp only [Function.comp] at hfa
    by_cases hpk : (p.1 == k) = true
    · right
      rw [if_pos hpk] at hfa
      exact hfa.symm
    · left
      rw [if_neg hpk] at hfa
      exact hfa ▸ List.mem_map_of_mem Prod.fst hp
  · rw [if_neg hc, List.map_append, List.mem_append] at h
    rcases h with h | h
    · exact Or.inl h
    · simp at h
      exact Or.inr h

theorem routeOne_acc_ok {sel : Selection} {acc acc2 : StatsAcc}
    {p : String × String}
    (hval : ValidSel sel) (hid : p.1 ∈ definedIds sel)
    (hacc : AccOk sel acc) (h : routeOne acc p = some acc2) :
    AccOk sel acc2 := by
  rcases mem_definedIds hid with ⟨n, hn, hfn⟩ | ⟨n, hn, hfn⟩
  · have hmem : (n, p.1) ∈ weeklyIdsTable := fromName_mem hfn
    have hfid : weeklyIds.fromId p.1 = some n :=
      fromId_of_mem weekly_snd_nodup hmem
    simp only [routeOne, hfid, Option.some.injEq] at h
    subst h
    refine ⟨fun k hk => ?_, fun k hk => hacc.2.1 k hk,
      fun k hk => hacc.2.2 k hk⟩
    rcases jsSet_keys hk with hk1 | hk1
    · exact hacc.1 k hk1
    · subst hk1
      refine ⟨List.mem_of_mem_filter hn, ?_⟩
      rw [← weekly_table_fst]
      exact List.mem_map_of_mem Prod.fst hmem
  · have hmem : (n, p.1) ∈ vaxIdsTable := fromName_mem hfn
    have hvid : vaxIds.fromId p.1 = some n :=
      fromId_of_mem vax_snd_nodup hmem
    have hwid : weeklyIds.fromId p.1 = none :=
      fromId_eq_none
        (vax_id_not_weekly p.1 (List.mem_map_of_mem Prod.snd hmem))
    have hnupd : n ≠ "updated" := by
      have := List.of_mem_filter hn
      simpa [notUpdated] using this
    have hnsel : n ∈ vaxPctSelKeys sel ++ vaxTotSelKeys sel :=
      List.mem_of_mem_filter hn
    have hnames : n ∈ vaxPctStatNames ++ vaxTotalStatNames := by
      rw [← vax_table_fst]
      exact List.mem_map_of_mem Prod.fst hmem
    by_cases hd : jsStartsWith n "dose" = true
    · simp only [routeOne, hwid, hvid, hd, if_true, Option.some.injEq] at h
      subst h
      refine ⟨fun k hk => hacc.1 k hk, fun k hk => ?_,
        fun k hk => hacc.2.2 k hk⟩
      rcases jsSet_keys hk with hk1 | hk1
      · exact hacc.2.1 k hk1
      · subst hk1
        constructor
        · rcases List.mem_append.mp hnsel with h1 | h1
          · exact h1
          · exfalso
            rcases hval.2.2 k h1 with h2 | h2
            · rw [h2] at hd
              exact absurd hd (by simp [markers_not_stat_names.2.2.2.2])
            · rw [tot_names_not_dose k h2] at hd
              cases hd
        · rcases List.mem_append.mp hnames with h1 | h1
          · exact h1
          · exfalso
            rw [tot_names_not_dose k h1] at hd
            cases hd
    · have hd' : jsStartsWith n "dose" = false :=
        Bool.eq_false_iff.mpr hd
      simp only [routeOne, hwid, hvid, hd', Bool.false_eq_true, if_false,
        Option.some.injEq] at h
      subst h
      refine ⟨fun k hk => hacc.1 k hk, fun k hk => hacc.2.1 k hk,
        fun k hk => ?_⟩
      rcases jsSet_keys hk with hk1 | hk1
      · exact hacc.2.2 k hk1
      · subst hk1
        constructor
        · rcases List.mem_append.mp hnsel with h1 | h1
          · exfalso
            rcases hval.2.1 k h1 with h2 | h2
            · exact hnupd h2
            · rw [pct_names_dose k h2] at hd'
              cases hd'
          · exact h1
        · rcases List.mem_append.mp hnames with h1 | h1
          · exfalso
            rw [pct_names_dose k h1] at hd'
            cases hd'
          · exact h1

theorem foldlM_acc_ok {sel : Selection} (hval : ValidSel sel) :
    ∀ (data : List (String × String)) (acc : StatsAcc),
      AccOk sel acc → (∀ p ∈ data, p.1 ∈ definedIds sel) →
      ∀ acc2, List.foldlM routeOne acc data = some acc2 →
        AccOk sel acc2 := by
  intro data
  induction data with
  | nil =>
    intro acc hacc _ acc2 h
    cases h
    exact hacc
  | cons p rest ih =>
    intro acc hacc hids acc2 h
    rw [List.foldlM_cons] at h
    cases hro : routeOne acc p with
    | none => rw [hro] at h; cases h
    | some a =>
      rw [hro] at h
      exact ih a (routeOne_acc_ok hval (hids p (List.mem_cons_self p rest))
        hacc hro) (fun q hq => hids q (List.mem_cons_of_mem p hq))
        acc2 h

theorem routeStats_acc_ok {sel : Selection} {data : List (String × String)}
    {acc : StatsAcc} (hval : ValidSel sel)
    (hids : ∀ p ∈ data, p.1 ∈ definedIds sel)
    (h : routeStats data = some acc) : AccOk sel acc :=
  foldlM_acc_ok hval data emptyAcc
    ⟨fun _ hk => (by cases hk), fun _ hk => (by cases hk),
     fun _ hk => (by cases hk)⟩ hids acc h

theorem weeklySlot_unsel {sel : Selection} {o : Oracles}
    {p : Option String × Option String}
    (h : weeklySlot sel o = .ok p) :
    (weeklyUpdatedSel sel = false → p.1 = none) ∧
    (weeklyWeekSel sel = false → p.2 = none) := by
  constructor
  · intro hu
    cases hw : weeklyWeekSel sel with
    | false =>
      simp only [weeklySlot, hu, hw, Bool.or_self, Bool.false_eq_true,
        if_false, Except.ok.injEq] at h
      rw [← h]
    | true =>
      cases ho : o.weeklyText with
      | error e => simp [weeklySlot, hu, hw, ho] at h
      | ok text =>
        cases hp2 : parseWeek WEEKLY_WEEK_RE text with
        | none =>
          simp [weeklySlot, hu, hw, ho, hp2, ofParse, Bind.bind,
            Except.bind, Except.map] at h
        | some w =>
          simp only [weeklySlot, hu, hw, ho, hp2, ofParse, Bool.or_true,
            if_true, Bool.false_eq_true, if_false, Bind.bind, Except.bind,
            Except.map, Except.ok.injEq] at h
          rw [← h]
  · intro hw
    cases hu : weeklyUpdatedSel sel with
    | false =>
      simp only [weeklySlot, hu, hw, Bool.or_self, Bool.false_eq_true,
        if_false, Except.ok.injEq] at h
      rw [← h]
    | true =>
      cases ho : o.weeklyText with
      | error e => simp [weeklySlot, hu, hw, ho] at h
      | ok text =>
        cases hp2 : parseDataPageDate text with
        | none =>
          simp [weeklySlot, hu, hw, ho, hp2, ofParse, Bind.bind,
            Except.bind, Except.map] at h
        | some u =>
          simp only [weeklySlot, hu, hw, ho, hp2, ofParse, Bool.true_or,
            if_true, Bool.false_eq_true, if_false, Bind.bind, Except.bind,
            Except.map, Except.ok.injEq] at h
          rw [← h]

theorem vaxPctsSlot_unsel {sel : Selection} {o : Oracles}
    (h : vaxPctUpdatedSel sel = false) : vaxPctsSlot sel o = .ok none := by
  simp [vaxPctsSlot, h]

theorem vaxTotalsSlot_unsel {sel : Selection} {o : Oracles}
    (h : vaxTotalsWeekSel sel = false) :
    vaxTotalsSlot sel o = .ok none := by
  simp [vaxTotalsSlot, h]

theorem statsSlot_acc_ok {sel : Selection} {o : Oracles}
    {data : List (String × String)} {acc : StatsAcc}
    (hval : ValidSel sel) (ho : o.statsData = .ok data)
    (hids : ∀ p ∈ data, p.1 ∈ definedIds sel)
    (h : statsSlot sel o = .ok acc) : AccOk sel acc := by
  unfold statsSlot at h
  by_cases hc : statsCallIssued sel = true
  · rw [if_pos hc, ho] at h
    cases hr : routeStats data with
    | none => simp [hr] at h
    | some a =>
      simp only [hr, Except.ok.injEq] at h
      subst h
      exact routeStats_acc_ok hval hids hr
  · rw [if_neg hc] at h
    cases h
    exact ⟨fun _ hk => (by cases hk), fun _ hk => (by cases hk),
      fun _ hk => (by cases hk)⟩

theorem resolve_ok_inv {sel : Selection} {o : Oracles} {tree : RespTree}
    (h : resolve sel o = .ok tree) :
    ∃ p pu tw acc, weeklySlot sel o = .ok p ∧
      vaxPctsSlot sel o = .ok pu ∧ vaxTotalsSlot sel o = .ok tw ∧
      statsSlot sel o = .ok acc ∧ tree = mkTree p.1 p.2 pu tw acc := by
  unfold resolve at h
  simp only [Bind.bind] at h
  cases hw : weeklySlot sel o with
  | error e => rw [hw] at h; cases h
  | ok p =>
    rw [hw] at h
    cases hp : vaxPctsSlot sel o with
    | error e => rw [hp] at h; cases h
    | ok pu =>
      rw [hp] at h
      cases ht : vaxTotalsSlot sel o with
      | error e => rw [ht] at h; cases h
      | ok tw =>
        rw [ht] at h
        cases hs : statsSlot sel o with
        | error e => rw [hs] at h; cases h
        | ok acc =>
          rw [hs] at h
          simp only [Except.bind, Pure.pure, Except.pure,
            Except.ok.injEq] at h
          exact ⟨p, pu, tw, acc, rfl, rfl, rfl, rfl, h.symm⟩

theorem definedKeys_append (a b : List (String × JVal)) :
    definedKeys (a ++ b) = definedKeys a ++ definedKeys b := by
  simp [definedKeys, List.filter_append]

theorem definedKeys_strs (l : List (String × String)) :
    definedKeys (l.map (fun q => (q.1, JVal.str q.2))) =
      l.map Prod.fst := by
  induction l with
  | nil => rfl
  | cons a t ih => simpa [definedKeys] using ih

theorem weeklyUpdatedSel_mem {sel : Selection}
    (h : weeklyUpdatedSel sel = true) :
    "updated" ∈ sel.weekly.getD [] := by
  unfold weeklyUpdatedSel at h
  cases hs : sel.weekly with
  | none => rw [hs] at h; cases h
  | some ks =>
    rw [hs] at h
    simpa using h

theorem weeklyWeekSel_mem {sel : Selection}
    (h : weeklyWeekSel sel = true) : "week" ∈ sel.weekly.getD [] := by
  unfold weeklyWeekSel at h
  cases hs : sel.weekly with
  | none => rw [hs] at h; cases h
  | some ks =>
    rw [hs] at h
    simpa using h

theorem vaxPctUpdatedSel_mem {sel : Selection}
    (h : vaxPctUpdatedSel sel = true) : "updated" ∈ vaxPctSelKeys sel := by
  cases hs : sel.vax with
  | none => simp [vaxPctUpdatedSel, hs] at h
  | some v =>
    cases hps : v.percentages with
    | none => simp [vaxPctUpdatedSel, hs, hps] at h
    | some ks =>
      simp only [vaxPctUpdatedSel, hs, hps] at h
      simp only [vaxPctSelKeys, hs, hps, Option.getD_some]
      simpa using h

theorem vaxTotalsWeekSel_mem {sel : Selection}
    (h : vaxTotalsWeekSel sel = true) : "week" ∈ vaxTotSelKeys sel := by
  cases hs : sel.vax with
  | none => simp [vaxTotalsWeekSel, hs] at h
  | some v =>
    cases hps : v.totals with
    | none => simp [vaxTotalsWeekSel, hs, hps] at h
    | some ks =>
      simp only [vaxTotalsWeekSel, hs, hps] at h
      simp only [vaxTotSelKeys, hs, hps, Option.getD_some]
      simpa using h

theorem map_fst_strs (l : List (String × String)) :
    (l.map (fun q => (q.1, JVal.str q.2))).map Prod.fst =
      l.map Prod.fst := by
  induction l with
  | nil => rfl
  | cons a t ih => simp [ih]

/-! ## Claim C3: merge omission -/

/-- Counterexample for C3 as stated: a request selecting only the
weekly newCases stat returns a tree whose weekly object does contain the
keys updated and week (with the undefined value), although neither was
selected; the claim asserts they would not appear as keys at all. -/
theorem C3_merge_omission_counterexample :
    resolve { weekly := some ["newCases"], vax := none }
      { weeklyText := .ok "", vaxPctsText := .ok "",
        vaxTotalsText := .ok "",
        statsData := .ok [("8e545be4-b7ab-4f9b-a04e-eb0ba4c815b8", "5")] } =
      .ok { weekly := [("newCases", .str "5"), ("updated", .undef),
                       ("week", .undef)],
            vaxPercentages := [("updated", .undef)],
            vaxTotals := [("week", .undef)] } ∧
    "week" ∉ (["newCases"] : List String) ∧
    "week" ∈
      ([("newCases", JVal.str "5"), ("updated", .undef),
        ("week", .undef)].map Prod.fst) := by
  refine ⟨by decide, by decide, by decide⟩

/-- C3 (amended): for every schema-valid selection and upstream batched
response honouring the IN filter, a field not present in the selection
never appears in the returned tree with a defined value (the merge
always writes the fixed marker keys, but carries undefined - which JSON
and GraphQL serialisation omit - whenever the marker was not selected),
and a stat identifier not present in the selection never appears as a
key at all. -/
theorem C3_merge_omission :
    ∀ (sel : Selection) (o : Oracles) (data : List (String × String))
      (tree : RespTree),
      ValidSel sel → o.statsData = .ok data →
      (∀ p ∈ data, p.1 ∈ definedIds sel) →
      resolve sel o = .ok tree →
      (∀ k, k ∉ sel.weekly.getD [] → k ∉ definedKeys tree.weekly) ∧
      (∀ k, k ∉ vaxPctSelKeys sel → k ∉ definedKeys tree.vaxPercentages) ∧
      (∀ k, k ∉ vaxTotSelKeys sel → k ∉ definedKeys tree.vaxTotals) ∧
      (∀ n ∈ weeklyStatNames, n ∉ sel.weekly.getD [] →
        n ∉ tree.weekly.map Prod.fst) ∧
      (∀ n ∈ vaxPctStatNames, n ∉ vaxPctSelKeys sel →
        n ∉ tree.vaxPercentages.map Prod.fst) ∧
      (∀ n ∈ vaxTotalStatNames, n ∉ vaxTotSelKeys sel →
        n ∉ tree.vaxTotals.map Prod.fst) := by
  intro sel o data tree hval ho hids hres
  obtain ⟨p, pu, tw, acc, hw, hpu, htw, hs, rfl⟩ := resolve_ok_inv hres
  have hacc := statsSlot_acc_ok hval ho hids hs
  have hwc := weeklySlot_unsel hw
  have hup : p.1 ≠ none → "updated" ∈ sel.weekly.getD [] := by
    intro hne
    cases hu : weeklyUpdatedSel sel with
    | false => exact absurd (hwc.1 hu) hne
    | true => exact weeklyUpdatedSel_mem hu
  have hwk : p.2 ≠ none → "week" ∈ sel.weekly.getD [] := by
    intro hne
    cases hu : weeklyWeekSel sel with
    | false => exact absurd (hwc.2 hu) hne
    | true => exact weeklyWeekSel_mem hu
  have hpuN : pu ≠ none → "updated" ∈ vaxPctSelKeys sel := by
    intro hne
    cases hu : vaxPctUpdatedSel sel with
    | false =>
      rw [vaxPctsSlot_unsel hu] at hpu
      exact absurd (Except.ok.inj hpu).symm hne
    | true => exact vaxPctUpdatedSel_mem hu
  have htwN : tw ≠ none → "week" ∈ vaxTotSelKeys sel := by
    intro hne
    cases hu : vaxTotalsWeekSel sel with
    | false =>
      rw [vaxTotalsSlot_unsel hu] at htw
      exact absurd (Except.ok.inj htw).symm hne
    | true => exact vaxTotalsWeekSel_mem hu
  refine ⟨?_, ?_, ?_, ?_, ?_, ?_⟩
  · intro k hk hmem
    dsimp only [mkTree] at hmem
    rw [definedKeys_append, definedKeys_strs] at hmem
    rcases List.mem_append.mp hmem with h1 | h1
    · exact hk (hacc.1 k h1).1
    · rcases cp1 : p.1 with _ | d <;> rcases cp2 : p.2 with _ | w <;>
        simp only [cp1, cp2, definedKeys, jopt, List.filter, List.map,
          List.mem_cons, List.not_mem_nil, or_false] at h1
      · subst h1
        exact hk (hwk (by simp [cp2]))
      · subst h1
        exact hk (hup (by simp [cp1]))
      · rcases h1 with h1 | h1
        · subst h1
          exact hk (hup (by simp [cp1]))
        · subst h1
          exact hk (hwk (by simp [cp2]))
  · intro k hk hmem
    dsimp only [mkTree] at hmem
    rw [definedKeys_append, definedKeys_strs] at hmem
    rcases List.mem_append.mp hmem with h1 | h1
    · exact hk (hacc.2.1 k h1).1
    · rcases cp1 : pu with _ | d <;>
        simp only [cp1, definedKeys, jopt, List.filter, List.map,
          List.mem_cons, List.not_mem_nil, or_false] at h1
      subst h1
      exact hk (hpuN (by simp [cp1]))
  · intro k hk hmem
    dsimp only [mkTree] at hmem
    rw [definedKeys_append, definedKeys_strs] at hmem
    rcases List.mem_append.mp hmem with h1 | h1
    · exact hk (hacc.2.2 k h1).1
    · rcases cp1 : tw with _ | d <;>
        simp only [cp1, definedKeys, jopt, List.filter, List.map,
          List.mem_cons, List.not_mem_nil, or_false] at h1
      subst h1
      exact hk (htwN (by simp [cp1]))
  · intro n hnstat hnsel hmem
    dsimp only [mkTree] at hmem
    rw [List.map_append, map_fst_strs] at hmem
    rcases List.mem_append.mp hmem with h1 | h1
    · exact hnsel (hacc.1 n h1).1
    · simp only [List.map, List.mem_cons, List.not_mem_nil,
        or_false] at h1
      rcases h1 with h1 | h1
      · exact markers_not_stat_names.1 (h1 ▸ hnstat)
      · exact markers_not_stat_names.2.1 (h1 ▸ hnstat)
  · intro n hnstat hnsel hmem
    dsimp only [mkTree] at hmem
    rw [List.map_append, map_fst_strs] at hmem
    rcases List.mem_append.mp hmem with h1 | h1
    · exact hnsel (hacc.2.1 n h1).1
    · simp only [List.map, List.mem_cons, List.not_mem_nil,
        or_false] at h1
      exact markers_not_stat_names.2.2.1 (h1 ▸ hnstat)
  · intro n hnstat hnsel hmem
    dsimp only [mkTree] at hmem
    rw [List.map_append, map_fst_strs] at hmem
    rcases List.mem_append.mp hmem with h1 | h1
    · exact hnsel (hacc.2.2 n h1).1
    · simp only [List.map, List.mem_cons, List.not_mem_nil,
        or_false] at h1
      exact markers_not_stat_names.2.2.2.1 (h1 ▸ hnstat)

/-- Witness for C3 (amended) on the counterexample's request: week was
not selected, so it does not appear among the defined keys, and the
unselected stat totalDeaths does not appear as a key at all. -/
theorem C3_merge_omission_witness :
    "week" ∉ definedKeys
      ([("newCases", JVal.str "5"), ("updated", .undef),
        ("week", .undef)]) ∧
    "totalDeaths" ∉
      ([("newCases", JVal.str "5"), ("updated", .undef),
        ("week", .undef)].map Prod.fst) :=
  ⟨((C3_merge_omission { weekly := some ["newCases"], vax := none }
      { weeklyText := .ok "", vaxPctsText := .ok "",
        vaxTotalsText := .ok "",
        statsData := .ok [("8e545be4-b7ab-4f9b-a04e-eb0ba4c815b8", "5")] }
      [("8e545be4-b7ab-4f9b-a04e-eb0ba4c815b8", "5")]
      { weekly := [("newCases", .str "5"), ("updated", .undef),
                   ("week", .undef)],
        vaxPercentages := [("updated", .undef)],
        vaxTotals := [("week", .undef)] }
      (by constructor <;> decide) rfl (by decide) (by decide)).1
    "week" (by decide)),
   ((C3_merge_omission { weekly := some ["newCases"], vax := none }
      { weeklyText := .ok "", vaxPctsText := .ok "",
        vaxTotalsText := .ok "",
        statsData := .ok [("8e545be4-b7ab-4f9b-a04e-eb0ba4c815b8", "5")] }
      [("8e545be4-b7ab-4f9b-a04e-eb0ba4c815b8", "5")]
      { weekly := [("newCases", .str "5"), ("updated", .undef),
                   ("week", .undef)],
        vaxPercentages := [("updated", .undef)],
        vaxTotals := [("week", .undef)] }
      (by constructor <;> decide) rfl (by decide) (by decide)).2.2.2.1
    "totalDeaths" (by decide) (by decide))⟩

/-! ## Claim C9: end-to-end scenario -/

/-- Counterexample for C9 as stated: for the request selecting only
weekly totalDeaths the resolver does make exactly the single batched
call, but the returned tree is not totalDeaths-only - the weekly object
also carries the keys updated and week with undefined values, and the
fixed vax wrapper objects with their marker keys are present as well. -/
theorem C9_end_to_end_counterexample :
    resolve { weekly := some ["totalDeaths"], vax := none }
      { weeklyText := .ok "", vaxPctsText := .ok "",
        vaxTotalsText := .ok "",
        statsData :=
          .ok [("69a44e8d-e04b-4c9a-ad7e-4dda9c662ad2", "5830")] } =
      .ok { weekly := [("totalDeaths", .str "5830"), ("updated", .undef),
                       ("week", .undef)],
            vaxPercentages := [("updated", .undef)],
            vaxTotals := [("week", .undef)] } ∧
    "updated" ∉ (["totalDeaths"] : List String) ∧
    "updated" ∈ ([("totalDeaths", JVal.str "5830"), ("updated", .undef),
      ("week", .undef)].map Prod.fst) ∧
    "week" ∈ ([("week", JVal.undef)].map Prod.fst) := by
  refine ⟨by decide, by decide, by decide, by decide⟩

/-- C9 (amended): a request selecting only weekly totalDeaths dispatches
exactly one upstream call - the batched statistic call whose IN filter
holds exactly the totalDeaths record id - regardless of the marker
oracles, which are never consulted; the returned tree carries the
(trimmed) value under totalDeaths in the weekly section, and every other
key of the tree holds undefined, so the serialised response is exactly
the totalDeaths-only object. -/
theorem C9_end_to_end :
    ∀ (v : String) (wT pT tT : Except String String),
      upstreamCallCount { weekly := some ["totalDeaths"], vax := none } =
        1 ∧
      statsCallIssued { weekly := some ["totalDeaths"], vax := none } =
        true ∧
      idsToFetch { weekly := some ["totalDeaths"], vax := none } =
        [some "69a44e8d-e04b-4c9a-ad7e-4dda9c662ad2"] ∧
      resolve { weekly := some ["totalDeaths"], vax := none }
        { weeklyText := wT, vaxPctsText := pT, vaxTotalsText := tT,
          statsData :=
            .ok [("69a44e8d-e04b-4c9a-ad7e-4dda9c662ad2", v)] } =
        .ok { weekly := [("totalDeaths", .str (jsTrim v)),
                         ("updated", .undef), ("week", .undef)],
              vaxPercentages := [("updated", .undef)],
              vaxTotals := [("week", .undef)] } ∧
      definedKeys [("totalDeaths", JVal.str (jsTrim v)),
        ("updated", .undef), ("week", .undef)] = ["totalDeaths"] ∧
      definedKeys [("updated", JVal.undef)] = [] ∧
      definedKeys [("week", JVal.undef)] = [] := by
  intro v wT pT tT
  exact ⟨by decide, by decide, by decide, rfl, rfl, rfl, rfl⟩

end CovidApi
